import Mathlib

/-!
Verification development for the background job execution and result-polling
subsystem of `corona.py` (the REINA epidemic simulation front end).

The embedding models time in milliseconds as `Nat` (the Python code uses
`time.time()` seconds; `0.5` seconds becomes `500` ms and `timeout=30`
seconds becomes `30000` ms).  Cache values are modelled by an inductive
`Val` (progress snapshots are opaque data, identified here by a `Nat` tag;
boolean flags are `Val.flag`).  The shared cache is an association list in
which later writes are prepended, so the most recent write to a key is the
first match.
-/

/-- A value stored in the shared cache: either a progress snapshot
(a dataframe in the Python code, identified here by an opaque `Nat` tag)
or a boolean flag (the `finished` flag and the kill signal are both
written as `True`). -/
inductive Val where
  | snap (df : Nat)
  | flag (b : Bool)
deriving DecidableEq, Repr

/-- One cache entry: the stored value, the (ms) time it was written, and the
explicit time-to-live in ms passed to `cache.set` (`none` when the caller
passed no `timeout` argument, in which case the cache's default timeout
applies). -/
structure CacheEntry where
  val : Val
  written : Nat
  timeout : Option Nat
deriving DecidableEq, Repr

/-- The shared cache, as an association list from keys to entries; writes
are prepended, so the first match for a key is the most recent write. -/
abbrev Cache := List (String × CacheEntry)

/-- Modelled from the spec: the Result Cache operation
`set(key, value, ttl)` of the cache module (the module itself is not part
of the visible source).  A write records the value, the write time and the
explicit ttl argument (`none` when the call site passes no ttl). -/
def cacheSet (c : Cache) (key : String) (v : Val) (now : Nat)
    (timeout : Option Nat) : Cache :=
  (key, ⟨v, now, timeout⟩) :: c

/-- Whether an entry has expired at time `now`: an entry expires once its
time-to-live (the explicit one, or the cache-wide default `defaultTimeout`
when none was passed) has elapsed since the write. -/
def entryExpired (defaultTimeout : Nat) (e : CacheEntry) (now : Nat) : Bool :=
  match e.timeout with
  | some t => decide (e.written + t ≤ now)
  | none => decide (e.written + defaultTimeout ≤ now)

/-- Modelled from the spec: the Result Cache operation `get(key)`, which
returns the most recently written value for `key`, or `none` when the key
was never written or the most recent write has expired. -/
def cacheGet (defaultTimeout : Nat) (c : Cache) (key : String) (now : Nat) :
    Option Val :=
  match c.find? (fun p => p.1 == key) with
  | none => none
  | some p => if entryExpired defaultTimeout p.2 now then none else some p.2.val

/-- Python truthiness of an optional cache value, as used by
`if cache.get('%s-finished' % func_hash):` — `None` is falsy, a stored
boolean is its own truth value.  (The `-finished` key only ever holds the
boolean `True` in the source, so the snapshot case is never exercised
there.) -/
def truthy : Option Val → Bool
  | none => false
  | some (Val.flag b) => b
  | some (Val.snap _) => true

/-! ## The worker (`SimulationThread.run` and its `step_callback`) -/

/-- The worker-local state threaded through `step_callback`: the shared
cache plus `self.last_results`, the time (ms) of the last accepted write
(`none` before the first accepted write, as `self.last_results = None`). -/
structure WorkerLocal where
  cache : Cache
  last_results : Option Nat
deriving DecidableEq, Repr

/-- The throttle condition of `step_callback`, translated from
`force or self.last_results is None or now - self.last_results > 0.5`
(with 0.5 s = 500 ms; `Nat` subtraction truncates at zero, which agrees
with the float comparison whenever the clock is monotone, and also rejects
whenever `now < last`, exactly as a negative float difference would). -/
def shouldWrite (force : Bool) (last : Option Nat) (now : Nat) : Bool :=
  force ||
    match last with
    | none => true
    | some l => decide (500 < now - l)

/-- The worker's progress callback, translated from `step_callback` in
`SimulationThread.run`: when the throttle condition holds it writes the
snapshot under `"{func_hash}-results"` with `timeout=30` (s) and updates
`self.last_results` to `now`; otherwise it leaves all state unchanged.
(The Python function also returns `True` unconditionally; that constant
return value is omitted.) -/
def step_callback (funcHash : String) (df : Nat) (force : Bool) (now : Nat)
    (st : WorkerLocal) : WorkerLocal :=
  if shouldWrite force st.last_results now then
    { cache := cacheSet st.cache (funcHash ++ "-results") (Val.snap df) now
        (some 30000),
      last_results := some now }
  else st

/-- One invocation of the progress callback by the simulation function:
the snapshot it passes, the `force` flag (always `false` when called from
inside the simulation), and the worker-clock time (ms) of the call. -/
structure CallbackCall where
  df : Nat
  force : Bool
  time : Nat
deriving DecidableEq, Repr

/-- How the opaque simulation function ends: returning a final result
normally, or raising `ExecutionInterrupted` (cooperative cancellation). -/
inductive SimOutcome where
  | finished (df : Nat)
  | interrupted
deriving DecidableEq, Repr

/-- An abstract execution of the opaque simulation function
(`simulate_individuals` with a `step_callback`): the sequence of progress
callback invocations it makes, followed by its outcome. -/
structure SimTrace where
  calls : List CallbackCall
  outcome : SimOutcome
deriving DecidableEq, Repr

/-- Folding the progress callback over the calls the simulation makes,
starting from a given worker-local state. -/
def runCallbacks (funcHash : String) (calls : List CallbackCall)
    (st : WorkerLocal) : WorkerLocal :=
  calls.foldl (fun s c => step_callback funcHash c.df c.force c.time s) st

/-- The process-wide Job Registry `process_pool`, an association list from
a worker's process identity (`self.ident`) to its handle (modelled by its
uuid string). -/
abbrev Pool := List (Nat × String)

/-- Dictionary assignment `process_pool[self.ident] = self`: any previous
binding for the key is replaced. -/
def poolInsert (pool : Pool) (ident : Nat) (uuid : String) : Pool :=
  (ident, uuid) :: pool.filter (fun p => p.1 != ident)

/-- Dictionary deletion `del process_pool[self.ident]`. -/
def poolErase (pool : Pool) (ident : Nat) : Pool :=
  pool.filter (fun p => p.1 != ident)

/-- Dictionary lookup in the Job Registry. -/
def poolLookup (pool : Pool) (ident : Nat) : Option String :=
  (pool.find? (fun p => p.1 == ident)).map (fun p => p.2)

/-- The process-wide state a worker run touches: the Job Registry and the
shared cache. -/
structure SysState where
  pool : Pool
  cache : Cache
deriving DecidableEq, Repr

/-- `SimulationThread.run`, translated from the source as a state
transformer.  In order: register in `process_pool`; set
`self.last_results = None`; run the simulation, which drives the progress
callback; on normal return, one forced `step_callback(df, force=True)`;
on `ExecutionInterrupted`, no forced publish; then (on both paths) write
`"{func_hash}-finished"` to `True` with no explicit timeout; finally
`del process_pool[self.ident]`.  `endTime` is the worker-clock time (ms)
at which the post-simulation writes happen. -/
def SimulationThread_run (ident : Nat) (uuid : String) (funcHash : String)
    (tr : SimTrace) (endTime : Nat) (st : SysState) : SysState :=
  let pool1 := poolInsert st.pool ident uuid
  let w1 := runCallbacks funcHash tr.calls ⟨st.cache, none⟩
  let w2 :=
    match tr.outcome with
    | SimOutcome.finished df => step_callback funcHash df true endTime w1
    | SimOutcome.interrupted => w1
  let cache2 := cacheSet w2.cache (funcHash ++ "-finished") (Val.flag true)
    endTime none
  ⟨poolErase pool1 ident, cache2⟩

/-- An observable event of a worker run, used to state ordering
properties: Job Registry mutations, the invocation and return of the
simulation function, and cache writes. -/
inductive WEvent where
  | regInsert (ident : Nat) (uuid : String)
  | regDelete (ident : Nat)
  | simInvoke
  | simReturn (outcome : SimOutcome)
  | cacheWrite (key : String) (v : Val) (time : Nat) (timeout : Option Nat)
deriving DecidableEq, Repr

/-- Whether an event mutates the Job Registry. -/
def isRegEvent : WEvent → Bool
  | WEvent.regInsert _ _ => true
  | WEvent.regDelete _ => true
  | _ => false

/-- The cache writes the throttled progress callback performs across a
sequence of calls, threading `self.last_results` exactly as
`step_callback` does. -/
def callbackEvents (funcHash : String) :
    List CallbackCall → Option Nat → List WEvent
  | [], _ => []
  | c :: rest, last =>
    if shouldWrite c.force last c.time then
      WEvent.cacheWrite (funcHash ++ "-results") (Val.snap c.df) c.time
          (some 30000) :: callbackEvents funcHash rest (some c.time)
    else
      callbackEvents funcHash rest last

/-- The ordered event trace of one `SimulationThread.run` execution,
mirroring the statement order of the source: register, invoke the
simulation (its callback writes happen during it), observe its outcome,
forced final publish only on normal completion, the `finished` flag write,
and deregistration as the last act. -/
def workerEvents (ident : Nat) (uuid : String) (funcHash : String)
    (tr : SimTrace) (endTime : Nat) : List WEvent :=
  WEvent.regInsert ident uuid :: WEvent.simInvoke ::
    (callbackEvents funcHash tr.calls none ++
      (WEvent.simReturn tr.outcome ::
        (match tr.outcome with
         | SimOutcome.finished df =>
             [WEvent.cacheWrite (funcHash ++ "-results") (Val.snap df) endTime
               (some 30000)]
         | SimOutcome.interrupted => []) ++
        [WEvent.cacheWrite (funcHash ++ "-finished") (Val.flag true) endTime
           none,
         WEvent.regDelete ident]))

/-- Applying one worker event to the process-wide state. -/
def applyWEvent (st : SysState) : WEvent → SysState
  | WEvent.regInsert i u => ⟨poolInsert st.pool i u, st.cache⟩
  | WEvent.regDelete i => ⟨poolErase st.pool i, st.cache⟩
  | WEvent.simInvoke => st
  | WEvent.simReturn _ => st
  | WEvent.cacheWrite k v t tl => ⟨st.pool, cacheSet st.cache k v t tl⟩

/-! ## The poll endpoint (`update_simulation_results`) -/

/-- The outcome of one poll: `preventUpdate` models
`raise dash.exceptions.PreventUpdate()` (decline, nothing changes,
polling continues as scheduled); `show` models returning the rendered
snapshot together with the `disabled` flag for the polling interval. -/
inductive PollResult where
  | preventUpdate
  | show (v : Val) (disabled : Bool)
deriving DecidableEq, Repr

/-- `update_simulation_results`, translated from the source: with no
`thread_id` in the session, decline; otherwise read
`"{func_hash}-results"` (with `func_hash` the binding-independent
fingerprint); absent means decline; otherwise present the snapshot with
the interval disabled exactly when `cache.get('%s-finished')` is truthy.
The function performs no cache writes; its result for an absent binding is
stated over arbitrary cache contents, reflecting that the source raises
before any cache access. -/
def update_simulation_results (defaultTimeout : Nat) (funcHash : String)
    (thread_id : Option String) (cache : Cache) (now : Nat) : PollResult :=
  match thread_id with
  | none => PollResult.preventUpdate
  | some _ =>
    match cacheGet defaultTimeout cache (funcHash ++ "-results") now with
    | none => PollResult.preventUpdate
    | some v =>
      PollResult.show v
        (truthy (cacheGet defaultTimeout cache (funcHash ++ "-finished") now))

/-! ## The launch orchestrator (`run_simulation_callback`) -/

/-- The per-caller Flask session: the variable store (named simulation
parameters, here with `Nat` values) and the session-to-job binding
`session['thread_id']`. -/
structure Session where
  vars : List (String × Nat)
  thread_id : Option String
deriving DecidableEq, Repr

/-- `set_variable` on the session's variable store: the new binding
replaces any previous one for the same name. -/
def set_variable (vars : List (String × Nat)) (name : String) (v : Nat) :
    List (String × Nat) :=
  (name, v) :: vars.filter (fun p => p.1 != name)

/-- The first statements of `run_simulation_callback`:
`set_variable('simulation_days', simulation_days)` and, when `n_clicks` is
truthy, `set_variable('random_seed', n_clicks)` (`n_clicks` is `None` or a
positive count in dash; both falsy cases are modelled by `0`). -/
def applyInputVars (sess : Session) (simulation_days n_clicks : Nat) :
    Session :=
  let s1 : Session := ⟨set_variable sess.vars "simulation_days" simulation_days,
    sess.thread_id⟩
  if n_clicks != 0 then
    ⟨set_variable s1.vars "random_seed" n_clicks, s1.thread_id⟩
  else s1

/-- A record of the worker spawned by the orchestrator: its fresh uuid
(which becomes the new session binding) and the snapshot of the caller's
session passed as `variables=session.copy()`, taken before the binding is
overwritten. -/
structure SpawnInfo where
  uuid : String
  vars : Session
deriving DecidableEq, Repr

/-- The caller-visible outcome of `run_simulation_callback`: a rendered
cached result, the "service busy" notice, or "computation started"
together with the polling parameters of the `dcc.Interval` component
(`interval=500` ms, `max_intervals=60`). -/
inductive RunOutcome where
  | cachedResult (v : Val)
  | busy
  | started (pollIntervalMs : Nat) (maxPolls : Nat) (uuid : String)
deriving DecidableEq, Repr

/-- Everything `run_simulation_callback` produces or mutates: the outcome
returned to the caller, the session after the call, the cache after the
call, and the worker spawned (if any).  The Job Registry is not among
these: the orchestrator never touches `process_pool` (only the worker's
own `run` mutates it). -/
structure OrchResult where
  outcome : RunOutcome
  session : Session
  cache : Cache
  spawned : Option SpawnInfo
deriving DecidableEq, Repr

/-- `run_simulation_callback`, translated from the source.  `fp` models
`generate_cache_key(simulate_individuals, var_store)` (the hasher is an
opaque external collaborator), `restrict` models
`settings.RESTRICT_TO_PRESET_SCENARIOS`, and `newUuid` the uuid drawn for
a newly constructed `SimulationThread`.  In order: update the session
variables from the inputs; `simulate_individuals(only_if_in_cache=True)`
— modelled from the spec (its body is not in the visible source) as a
non-expired cache lookup of `"{fingerprint}-results"` — returns a cached
result directly when present; otherwise decline as busy when restricted;
otherwise write the kill signal `"thread-{old}-kill" = True` (no explicit
ttl) when the session already holds a binding, spawn a worker seeded with
`session.copy()`, overwrite `session['thread_id']`, and return the
polling parameters. -/
def run_simulation_callback (restrict : Bool) (defaultTimeout : Nat)
    (fp : List (String × Nat) → String) (newUuid : String)
    (simulation_days n_clicks : Nat) (sess : Session) (cache : Cache)
    (now : Nat) : OrchResult :=
  let sess2 := applyInputVars sess simulation_days n_clicks
  let funcHash := fp sess2.vars
  match cacheGet defaultTimeout cache (funcHash ++ "-results") now with
  | some v => ⟨RunOutcome.cachedResult v, sess2, cache, none⟩
  | none =>
    if restrict then ⟨RunOutcome.busy, sess2, cache, none⟩
    else
      let cache1 :=
        match sess2.thread_id with
        | some old =>
            cacheSet cache ("thread-" ++ old ++ "-kill") (Val.flag true) now
              none
        | none => cache
      ⟨RunOutcome.started 500 60 newUuid,
        ⟨sess2.vars, some newUuid⟩, cache1, some ⟨newUuid, sess2⟩⟩

/-! ## Helper lemmas -/

/-- The throttle condition of the source, phrased as the spec phrases it:
`force` is true, or no write has been accepted yet, or strictly more than
0.5 s (500 ms) have elapsed since the last accepted write. -/
def specWriteCond (force : Bool) (last : Option Nat) (now : Nat) : Prop :=
  force = true ∨ last = none ∨ ∃ l, last = some l ∧ 500 < now - l

lemma shouldWrite_iff (force : Bool) (last : Option Nat) (now : Nat) :
    shouldWrite force last now = true ↔ specWriteCond force last now := by
  cases force <;> cases last <;>
    simp [shouldWrite, specWriteCond]

lemma applyInputVars_thread_id (sess : Session) (d n : Nat) :
    (applyInputVars sess d n).thread_id = sess.thread_id := by
  unfold applyInputVars
  split <;> rfl

lemma callbackEvents_nonreg (funcHash : String) :
    ∀ (calls : List CallbackCall) (last : Option Nat),
      ∀ e ∈ callbackEvents funcHash calls last, isRegEvent e = false := by
  intro calls
  induction calls with
  | nil => intro last e he; simp [callbackEvents] at he
  | cons c rest ih =>
      intro last e he
      unfold callbackEvents at he
      by_cases hw : shouldWrite c.force last c.time = true
      · rw [if_pos hw] at he
        rcases List.mem_cons.mp he with h1 | h1
        · subst h1; simp [isRegEvent]
        · exact ih (some c.time) e h1
      · rw [if_neg hw] at he
        exact ih last e he

lemma foldl_nonreg_pool :
    ∀ (evs : List WEvent) (st : SysState),
      (∀ e ∈ evs, isRegEvent e = false) →
      (evs.foldl applyWEvent st).pool = st.pool := by
  intro evs
  induction evs with
  | nil => intro st _; rfl
  | cons e rest ih =>
      intro st h
      have he : isRegEvent e = false := h e (List.mem_cons_self e rest)
      have hpool : (applyWEvent st e).pool = st.pool := by
        cases e <;> simp [applyWEvent, isRegEvent] at he ⊢
      rw [List.foldl_cons, ih (applyWEvent st e) (fun x hx => h x (List.mem_cons_of_mem e hx)), hpool]

lemma poolLookup_insert (pool : Pool) (ident : Nat) (uuid : String) :
    poolLookup (poolInsert pool ident uuid) ident = some uuid := by
  simp [poolLookup, poolInsert, List.find?]

lemma poolLookup_none_filter (pool : Pool) (ident : Nat)
    (h : poolLookup pool ident = none) :
    pool.filter (fun p => p.1 != ident) = pool := by
  rw [List.filter_eq_self]
  intro p hp
  cases hfind : pool.find? (fun q => q.1 == ident) with
  | none =>
      have := List.find?_eq_none.mp hfind p hp
      simpa using this
  | some x => simp [poolLookup, hfind] at h

/-! ## Claims -/

/-- C1: the progress callback writes the snapshot to the cache under
`"{fingerprint}-results"` iff `force` is true, or no write has been
accepted yet by this worker, or strictly more than 0.5 s (500 ms) of the
worker's clock have elapsed since the last accepted write; an accepted
write updates the last-accepted-write timestamp to `now`, and a rejected
call leaves the whole worker-local state (in particular every cache key)
unchanged. -/
theorem C1_step_callback_throttle (funcHash : String) (df : Nat)
    (force : Bool) (now : Nat) (st : WorkerLocal) :
    (specWriteCond force st.last_results now →
      step_callback funcHash df force now st =
        ⟨cacheSet st.cache (funcHash ++ "-results") (Val.snap df) now
          (some 30000), some now⟩)
    ∧ (¬ specWriteCond force st.last_results now →
      step_callback funcHash df force now st = st) := by
  constructor
  · intro hc
    unfold step_callback
    rw [if_pos ((shouldWrite_iff force st.last_results now).mpr hc)]
  · intro hc
    unfold step_callback
    rw [if_neg (fun hw => hc ((shouldWrite_iff force st.last_results now).mp hw))]

/-- Witness for C1: a forced call on a fresh worker state is accepted and
writes the snapshot with a 30 s ttl. -/
theorem C1_step_callback_throttle_witness :
    step_callback "h" 7 true 0 ⟨[], none⟩ =
      ⟨cacheSet [] ("h" ++ "-results") (Val.snap 7) 0 (some 30000), some 0⟩ :=
  (C1_step_callback_throttle "h" 7 true 0 ⟨[], none⟩).1 (Or.inl rfl)

/-- C2: when the simulation returns normally, the worker performs exactly
one final forced publish of the final result to `"{fingerprint}-results"`
and afterwards (on top of it) writes the `"{fingerprint}-finished"` flag;
when the simulation raises `ExecutionInterrupted`, the cache receives no
write after the throttled callback writes except the `finished` flag —
in particular no forced final publish of any result. -/
theorem C2_final_forced_publish (ident : Nat) (uuid funcHash : String)
    (calls : List CallbackCall) (endTime : Nat) (st : SysState) (df : Nat) :
    (SimulationThread_run ident uuid funcHash ⟨calls, SimOutcome.finished df⟩
        endTime st).cache
      = cacheSet
          (cacheSet (runCallbacks funcHash calls ⟨st.cache, none⟩).cache
            (funcHash ++ "-results") (Val.snap df) endTime (some 30000))
          (funcHash ++ "-finished") (Val.flag true) endTime none
    ∧ (SimulationThread_run ident uuid funcHash ⟨calls, SimOutcome.interrupted⟩
        endTime st).cache
      = cacheSet (runCallbacks funcHash calls ⟨st.cache, none⟩).cache
          (funcHash ++ "-finished") (Val.flag true) endTime none := by
  constructor <;>
    simp [SimulationThread_run, step_callback, shouldWrite]

/-- C8: a poll by a caller with no session binding declines as a no-op:
for every cache content the result is `PreventUpdate` (so no snapshot is
shown and polling is not disabled), the result does not depend on the
cache, and the endpoint performs no cache write (the model of
`update_simulation_results` returns no modified cache because the source
function contains no `cache.set`). -/
theorem C8_poll_without_binding (defaultTimeout : Nat) (funcHash : String)
    (cache : Cache) (now : Nat) :
    update_simulation_results defaultTimeout funcHash none cache now =
      PollResult.preventUpdate := rfl

/-- C3: when a non-expired cached result exists for the request's
fingerprint, the orchestrator returns that cached result directly, spawns
no worker, leaves the session binding unchanged, and writes no cache key
(in particular no kill signal).  `simulate_individuals(only_if_in_cache=True)`
is modelled from the spec as the non-expired cache lookup of the
fingerprint's `-results` key. -/
theorem C3_cached_result_reuse (restrict : Bool) (defaultTimeout : Nat)
    (fp : List (String × Nat) → String) (newUuid : String)
    (days n_clicks : Nat) (sess : Session) (cache : Cache) (now : Nat)
    (v : Val)
    (hcached : cacheGet defaultTimeout cache
      (fp (applyInputVars sess days n_clicks).vars ++ "-results") now
        = some v) :
    (run_simulation_callback restrict defaultTimeout fp newUuid days n_clicks
        sess cache now).outcome = RunOutcome.cachedResult v
    ∧ (run_simulation_callback restrict defaultTimeout fp newUuid days
        n_clicks sess cache now).spawned = none
    ∧ (run_simulation_callback restrict defaultTimeout fp newUuid days
        n_clicks sess cache now).session.thread_id = sess.thread_id
    ∧ (run_simulation_callback restrict defaultTimeout fp newUuid days
        n_clicks sess cache now).cache = cache := by
  simp only [run_simulation_callback]
  rw [hcached]
  exact ⟨rfl, rfl, applyInputVars_thread_id sess days n_clicks, rfl⟩

/-- Witness for C3: with the fingerprint's result present in the cache,
the orchestrator returns it and changes nothing. -/
theorem C3_cached_result_reuse_witness :
    (run_simulation_callback false 5 (fun _ => "h") "new" 45 1
        ⟨[], some "old"⟩ [("h" ++ "-results", ⟨Val.snap 3, 0, some 30000⟩)]
        0).outcome = RunOutcome.cachedResult (Val.snap 3)
    ∧ (run_simulation_callback false 5 (fun _ => "h") "new" 45 1
        ⟨[], some "old"⟩ [("h" ++ "-results", ⟨Val.snap 3, 0, some 30000⟩)]
        0).spawned = none
    ∧ (run_simulation_callback false 5 (fun _ => "h") "new" 45 1
        ⟨[], some "old"⟩ [("h" ++ "-results", ⟨Val.snap 3, 0, some 30000⟩)]
        0).session.thread_id = some "old"
    ∧ (run_simulation_callback false 5 (fun _ => "h") "new" 45 1
        ⟨[], some "old"⟩ [("h" ++ "-results", ⟨Val.snap 3, 0, some 30000⟩)]
        0).cache = [("h" ++ "-results", ⟨Val.snap 3, 0, some 30000⟩)] :=
  C3_cached_result_reuse false 5 (fun _ => "h") "new" 45 1 ⟨[], some "old"⟩
    [("h" ++ "-results", ⟨Val.snap 3, 0, some 30000⟩)] 0 (Val.snap 3)
    (by simp [cacheGet, entryExpired, List.find?])

/-- C9: when the configuration restricts new computation and no cached
result exists for the fingerprint, the orchestrator returns the
user-visible "service busy" outcome, spawns no worker, leaves the session
binding unchanged, and writes no cache key (in particular no kill
signal). -/
theorem C9_restricted_busy (defaultTimeout : Nat)
    (fp : List (String × Nat) → String) (newUuid : String)
    (days n_clicks : Nat) (sess : Session) (cache : Cache) (now : Nat)
    (hnone : cacheGet defaultTimeout cache
      (fp (applyInputVars sess days n_clicks).vars ++ "-results") now
        = none) :
    (run_simulation_callback true defaultTimeout fp newUuid days n_clicks
        sess cache now).outcome = RunOutcome.busy
    ∧ (run_simulation_callback true defaultTimeout fp newUuid days n_clicks
        sess cache now).spawned = none
    ∧ (run_simulation_callback true defaultTimeout fp newUuid days n_clicks
        sess cache now).session.thread_id = sess.thread_id
    ∧ (run_simulation_callback true defaultTimeout fp newUuid days n_clicks
        sess cache now).cache = cache := by
  simp only [run_simulation_callback]
  rw [hnone]
  exact ⟨rfl, rfl, applyInputVars_thread_id sess days n_clicks, rfl⟩

/-- Witness for C9: with an empty cache and the restriction on, the
orchestrator declines as busy without spawning. -/
theorem C9_restricted_busy_witness :
    (run_simulation_callback true 5 (fun _ => "h") "new" 45 1
        ⟨[], some "old"⟩ [] 0).outcome = RunOutcome.busy
    ∧ (run_simulation_callback true 5 (fun _ => "h") "new" 45 1
        ⟨[], some "old"⟩ [] 0).spawned = none
    ∧ (run_simulation_callback true 5 (fun _ => "h") "new" 45 1
        ⟨[], some "old"⟩ [] 0).session.thread_id = some "old"
    ∧ (run_simulation_callback true 5 (fun _ => "h") "new" 45 1
        ⟨[], some "old"⟩ [] 0).cache = [] :=
  C9_restricted_busy 5 (fun _ => "h") "new" 45 1 ⟨[], some "old"⟩ [] 0 rfl

/-- C4: on the spawn path (no cached result, computation not restricted),
a caller whose session binding holds a previous job id causes exactly one
kill-signal write under the key `"thread-{old}-kill"` with value `True`;
the orchestrator then spawns a worker seeded with the copy of the caller's
current session (variables as updated by the request inputs), overwrites
the session binding with the new worker's job id, and returns the
"computation started" outcome with the polling parameters (500 ms
interval, at most 60 polls). -/
theorem C4_spawn_kills_superseded (defaultTimeout : Nat)
    (fp : List (String × Nat) → String) (newUuid : String)
    (days n_clicks : Nat) (vars : List (String × Nat)) (old : String)
    (cache : Cache) (now : Nat)
    (hnone : cacheGet defaultTimeout cache
      (fp (applyInputVars ⟨vars, some old⟩ days n_clicks).vars ++ "-results")
        now = none) :
    (run_simulation_callback false defaultTimeout fp newUuid days n_clicks
        ⟨vars, some old⟩ cache now).cache
      = cacheSet cache ("thread-" ++ old ++ "-kill") (Val.flag true) now none
    ∧ (run_simulation_callback false defaultTimeout fp newUuid days n_clicks
        ⟨vars, some old⟩ cache now).spawned
      = some ⟨newUuid, applyInputVars ⟨vars, some old⟩ days n_clicks⟩
    ∧ (run_simulation_callback false defaultTimeout fp newUuid days n_clicks
        ⟨vars, some old⟩ cache now).session.thread_id = some newUuid
    ∧ (run_simulation_callback false defaultTimeout fp newUuid days n_clicks
        ⟨vars, some old⟩ cache now).outcome
      = RunOutcome.started 500 60 newUuid := by
  have hold : (applyInputVars ⟨vars, some old⟩ days n_clicks).thread_id
      = some old := applyInputVars_thread_id ⟨vars, some old⟩ days n_clicks
  simp only [run_simulation_callback]
  rw [hnone, hold]
  exact ⟨rfl, rfl, rfl, rfl⟩

/-- Witness for C4: a concrete spawn over an empty cache with a stale
binding writes its kill signal and starts the new job. -/
theorem C4_spawn_kills_superseded_witness :
    (run_simulation_callback false 5 (fun _ => "h") "new" 45 1
        ⟨[], some "old"⟩ [] 3).cache
      = cacheSet [] ("thread-" ++ "old" ++ "-kill") (Val.flag true) 3 none
    ∧ (run_simulation_callback false 5 (fun _ => "h") "new" 45 1
        ⟨[], some "old"⟩ [] 3).spawned
      = some ⟨"new", applyInputVars ⟨[], some "old"⟩ 45 1⟩
    ∧ (run_simulation_callback false 5 (fun _ => "h") "new" 45 1
        ⟨[], some "old"⟩ [] 3).session.thread_id = some "new"
    ∧ (run_simulation_callback false 5 (fun _ => "h") "new" 45 1
        ⟨[], some "old"⟩ [] 3).outcome = RunOutcome.started 500 60 "new" :=
  C4_spawn_kills_superseded 5 (fun _ => "h") "new" 45 1 [] "old" [] 3 rfl

/-- C7: for a poll by a caller with a session binding, an absent
`"{fingerprint}-results"` entry makes the poll decline (pending, polling
continues); a present snapshot is shown, with further polling disabled
exactly when the `"{fingerprint}-finished"` flag reads as `True`, and
polling kept enabled when the flag reads as `False` or is absent. -/
theorem C7_poll_snapshot_and_finished (defaultTimeout : Nat)
    (funcHash tid : String) (cache : Cache) (now : Nat) :
    (cacheGet defaultTimeout cache (funcHash ++ "-results") now = none →
      update_simulation_results defaultTimeout funcHash (some tid) cache now
        = PollResult.preventUpdate)
    ∧ (∀ v, cacheGet defaultTimeout cache (funcHash ++ "-results") now
          = some v →
        (cacheGet defaultTimeout cache (funcHash ++ "-finished") now
            = some (Val.flag true) →
          update_simulation_results defaultTimeout funcHash (some tid) cache
            now = PollResult.show v true)
        ∧ (cacheGet defaultTimeout cache (funcHash ++ "-finished") now
            = none →
          update_simulation_results defaultTimeout funcHash (some tid) cache
            now = PollResult.show v false)
        ∧ (cacheGet defaultTimeout cache (funcHash ++ "-finished") now
            = some (Val.flag false) →
          update_simulation_results defaultTimeout funcHash (some tid) cache
            now = PollResult.show v false)) := by
  refine ⟨fun hres => ?_, fun v hres => ⟨fun hfin => ?_, fun hfin => ?_, fun hfin => ?_⟩⟩ <;>
    simp only [update_simulation_results] <;> rw [hres] <;>
    first
      | rfl
      | (rw [hfin]; rfl)

/-- Witness for C7: a cache holding a snapshot and a true finished flag
makes the poll show the snapshot and disable the interval. -/
theorem C7_poll_snapshot_and_finished_witness :
    update_simulation_results 9 "h" (some "t")
        [("h" ++ "-results", ⟨Val.snap 4, 0, some 30000⟩),
         ("h" ++ "-finished", ⟨Val.flag true, 0, none⟩)] 1
      = PollResult.show (Val.snap 4) true :=
  ((C7_poll_snapshot_and_finished 9 "h" "t"
      [("h" ++ "-results", ⟨Val.snap 4, 0, some 30000⟩),
       ("h" ++ "-finished", ⟨Val.flag true, 0, none⟩)] 1).2 (Val.snap 4)
    (by simp [cacheGet, entryExpired, List.find?])).1
    (by simp [cacheGet, entryExpired, List.find?])

lemma callbackEvents_foldl (funcHash : String) :
    ∀ (calls : List CallbackCall) (last : Option Nat) (pool : Pool)
      (cache : Cache),
      (callbackEvents funcHash calls last).foldl applyWEvent ⟨pool, cache⟩
        = ⟨pool, (runCallbacks funcHash calls ⟨cache, last⟩).cache⟩ := by
  intro calls
  induction calls with
  | nil => intro last pool cache; rfl
  | cons c rest ih =>
      intro last pool cache
      unfold callbackEvents
      by_cases hw : shouldWrite c.force last c.time = true
      · rw [if_pos hw, List.foldl_cons]
        have happ : applyWEvent ⟨pool, cache⟩
            (WEvent.cacheWrite (funcHash ++ "-results") (Val.snap c.df)
              c.time (some 30000))
            = ⟨pool, cacheSet cache (funcHash ++ "-results") (Val.snap c.df)
                c.time (some 30000)⟩ := rfl
        rw [happ, ih]
        have hstep : step_callback funcHash c.df c.force c.time ⟨cache, last⟩
            = ⟨cacheSet cache (funcHash ++ "-results") (Val.snap c.df) c.time
                (some 30000), some c.time⟩ := by
          unfold step_callback
          rw [if_pos hw]
        simp only [runCallbacks, List.foldl_cons]
        rw [hstep]
      · rw [if_neg hw, ih]
        have hstep : step_callback funcHash c.df c.force c.time ⟨cache, last⟩
            = ⟨cache, last⟩ := by
          unfold step_callback
          rw [if_neg hw]
        simp only [runCallbacks, List.foldl_cons]
        rw [hstep]

lemma workerEvents_foldl (ident : Nat) (uuid funcHash : String)
    (tr : SimTrace) (endTime : Nat) (st : SysState) :
    (workerEvents ident uuid funcHash tr endTime).foldl applyWEvent st
      = SimulationThread_run ident uuid funcHash tr endTime st := by
  obtain ⟨calls, outcome⟩ := tr
  cases outcome with
  | finished df =>
      simp only [workerEvents, SimulationThread_run, List.foldl_cons,
        List.foldl_append, applyWEvent]
      rw [callbackEvents_foldl]
      simp only [List.foldl_cons, List.foldl_nil, applyWEvent,
        step_callback, shouldWrite, Bool.true_or, if_pos]
  | interrupted =>
      simp only [workerEvents, SimulationThread_run, List.foldl_cons,
        List.foldl_append, applyWEvent]
      rw [callbackEvents_foldl]
      simp only [List.foldl_cons, List.foldl_nil, applyWEvent]

lemma poolErase_insert (pool : Pool) (i : Nat) (u : String) :
    poolErase (poolInsert pool i u) i = poolErase pool i := by
  simp [poolErase, poolInsert, List.filter_filter]

lemma poolLookup_erase (pool : Pool) (i : Nat) :
    poolLookup (poolErase pool i) i = none := by
  have hfind : (poolErase pool i).find? (fun p => p.1 == i) = none := by
    rw [List.find?_eq_none]
    intro x hx
    have hmem := (List.mem_filter.mp hx).2
    simpa using hmem
  simp [poolLookup, hfind]

lemma SimulationThread_run_pool (ident : Nat) (uuid funcHash : String)
    (tr : SimTrace) (endTime : Nat) (st : SysState) :
    (SimulationThread_run ident uuid funcHash tr endTime st).pool
      = poolErase (poolInsert st.pool ident uuid) ident := rfl

/-- C6: the worker's event trace begins by inserting its handle into the
Job Registry (keyed by its process identity) before the simulation is
invoked, ends by removing that entry as its very last act on both exit
paths (the trace shape below holds for every outcome, normal or
cancelled), and performs no other registry mutation in between; folding
the trace shows the registry maps the worker's identity to its handle at
every moment strictly between start and the final event, and a run over a
registry not containing the identity restores the registry exactly (the
entry is gone after every run).  No other modelled component
(`update_simulation_results`, `run_simulation_callback`) takes or touches
the registry at all, mirroring that only `SimulationThread.run` references
`process_pool` in the source. -/
theorem C6_registry_lifecycle (ident : Nat) (uuid funcHash : String)
    (tr : SimTrace) (endTime : Nat) :
    (∃ mid, workerEvents ident uuid funcHash tr endTime
        = WEvent.regInsert ident uuid :: WEvent.simInvoke ::
            (mid ++ [WEvent.regDelete ident])
      ∧ ∀ e ∈ mid, isRegEvent e = false)
    ∧ (∀ st : SysState, poolLookup st.pool ident = none →
        (SimulationThread_run ident uuid funcHash tr endTime st).pool
          = st.pool)
    ∧ (∀ st : SysState,
        poolLookup (SimulationThread_run ident uuid funcHash tr endTime
          st).pool ident = none)
    ∧ (∀ (st : SysState) (n : Nat), 0 < n →
        n < (workerEvents ident uuid funcHash tr endTime).length →
        poolLookup (List.foldl applyWEvent st
          ((workerEvents ident uuid funcHash tr endTime).take n)).pool ident
          = some uuid) := by
  obtain ⟨calls, outcome⟩ := tr
  have hshape : ∃ mid, workerEvents ident uuid funcHash ⟨calls, outcome⟩
      endTime = WEvent.regInsert ident uuid :: WEvent.simInvoke ::
        (mid ++ [WEvent.regDelete ident])
      ∧ ∀ e ∈ mid, isRegEvent e = false := by
    cases outcome with
    | finished df =>
        refine ⟨callbackEvents funcHash calls none ++
          (WEvent.simReturn (SimOutcome.finished df) ::
            [WEvent.cacheWrite (funcHash ++ "-results") (Val.snap df)
               endTime (some 30000),
             WEvent.cacheWrite (funcHash ++ "-finished") (Val.flag true)
               endTime none]), ?_, ?_⟩
        · simp [workerEvents, List.append_assoc]
        · intro e he
          rcases List.mem_append.mp he with h1 | h1
          · exact callbackEvents_nonreg funcHash calls none e h1
          · rcases List.mem_cons.mp h1 with h2 | h2
            · subst h2; rfl
            · rcases List.mem_cons.mp h2 with h3 | h3
              · subst h3; rfl
              · rcases List.mem_cons.mp h3 with h4 | h4
                · subst h4; rfl
                · simp at h4
    | interrupted =>
        refine ⟨callbackEvents funcHash calls none ++
          (WEvent.simReturn SimOutcome.interrupted ::
            [WEvent.cacheWrite (funcHash ++ "-finished") (Val.flag true)
               endTime none]), ?_, ?_⟩
        · simp [workerEvents, List.append_assoc]
        · intro e he
          rcases List.mem_append.mp he with h1 | h1
          · exact callbackEvents_nonreg funcHash calls none e h1
          · rcases List.mem_cons.mp h1 with h2 | h2
            · subst h2; rfl
            · rcases List.mem_cons.mp h2 with h3 | h3
              · subst h3; rfl
              · simp at h3
  refine ⟨hshape, ?_, ?_, ?_⟩
  · intro st hfresh
    rw [SimulationThread_run_pool, poolErase_insert]
    exact poolLookup_none_filter st.pool ident hfresh
  · intro st
    rw [SimulationThread_run_pool]
    exact poolLookup_erase _ ident
  · intro st n hn hlen
    obtain ⟨mid, hmid, hnonreg⟩ := hshape
    obtain ⟨k, rfl⟩ : ∃ k, n = k + 1 :=
      ⟨n - 1, (Nat.succ_pred_eq_of_pos hn).symm⟩
    rw [hmid] at hlen ⊢
    rw [List.take_succ_cons, List.foldl_cons]
    have hk : k ≤ (WEvent.simInvoke :: mid).length := by
      simp only [List.length_cons, List.length_append, List.length_nil]
        at hlen ⊢
      omega
    have hsplit : WEvent.simInvoke :: (mid ++ [WEvent.regDelete ident])
        = (WEvent.simInvoke :: mid) ++ [WEvent.regDelete ident] := by simp
    rw [hsplit, List.take_append_of_le_length hk]
    have hpool : (List.foldl applyWEvent
        (applyWEvent st (WEvent.regInsert ident uuid))
        ((WEvent.simInvoke :: mid).take k)).pool
        = (applyWEvent st (WEvent.regInsert ident uuid)).pool := by
      apply foldl_nonreg_pool
      intro e he
      have hmem : e ∈ WEvent.simInvoke :: mid := List.take_subset k _ he
      rcases List.mem_cons.mp hmem with h1 | h1
      · subst h1; rfl
      · exact hnonreg e h1
    rw [hpool]
    exact poolLookup_insert st.pool ident uuid

/-- Witness for C6: for a trivial cancelled run over an empty registry,
the registry is restored at the end and holds the worker's handle right
after the second event (registration followed by the simulation
invocation). -/
theorem C6_registry_lifecycle_witness :
    (SimulationThread_run 0 "u" "h" ⟨[], SimOutcome.interrupted⟩ 0
        ⟨[], []⟩).pool = ([] : Pool)
    ∧ poolLookup (List.foldl applyWEvent ⟨[], []⟩
        ((workerEvents 0 "u" "h" ⟨[], SimOutcome.interrupted⟩ 0).take
          2)).pool 0 = some "u" :=
  ⟨(C6_registry_lifecycle 0 "u" "h" ⟨[], SimOutcome.interrupted⟩ 0).2.1
      ⟨[], []⟩ rfl,
   (C6_registry_lifecycle 0 "u" "h" ⟨[], SimOutcome.interrupted⟩ 0).2.2.2
      ⟨[], []⟩ 2 (by decide) (by decide)⟩

lemma callbackEvents_writes (funcHash : String) :
    ∀ (calls : List CallbackCall) (last : Option Nat),
      ∀ e ∈ callbackEvents funcHash calls last,
        ∃ df t, e = WEvent.cacheWrite (funcHash ++ "-results") (Val.snap df)
          t (some 30000) := by
  intro calls
  induction calls with
  | nil => intro last e he; simp [callbackEvents] at he
  | cons c rest ih =>
      intro last e he
      unfold callbackEvents at he
      by_cases hw : shouldWrite c.force last c.time = true
      · rw [if_pos hw] at he
        rcases List.mem_cons.mp he with h1 | h1
        · exact ⟨c.df, c.time, h1⟩
        · exact ih (some c.time) e h1
      · rw [if_neg hw] at he
        exact ih last e he

/-- C5 is false as stated: in a run over an empty cache whose simulation
immediately finishes, the worker's `"{fingerprint}-finished"` entry is
written with no explicit time-to-live (the `cache.set` call for the
finished flag passes no `timeout` argument), so not every entry written by
the worker carries the 30-second ttl. -/
theorem C5_ttl_counterexample :
    ¬ (∀ p ∈ (SimulationThread_run 0 "u" "h" ⟨[], SimOutcome.finished 1⟩ 0
          ⟨[], []⟩).cache, p.2.timeout = some 30000) := by
  intro h
  have hmem : ("h" ++ "-finished",
      (⟨Val.flag true, 0, none⟩ : CacheEntry)) ∈
      (SimulationThread_run 0 "u" "h" ⟨[], SimOutcome.finished 1⟩ 0
        ⟨[], []⟩).cache := by
    simp [SimulationThread_run, runCallbacks, step_callback, shouldWrite,
      cacheSet]
  have := h _ hmem
  simp at this

/-- C5 amended: the worker's `-results` snapshot writes (throttled and
forced alike) all carry the explicit 30-second time-to-live, while the
`-finished` flag is written with no explicit time-to-live, so it expires
after the cache's default timeout instead. -/
theorem C5_worker_write_ttls (ident : Nat) (uuid funcHash : String)
    (tr : SimTrace) (endTime : Nat) :
    ∀ e ∈ workerEvents ident uuid funcHash tr endTime,
      ∀ k v t tl, e = WEvent.cacheWrite k v t tl →
        (k = funcHash ++ "-results" ∧ tl = some 30000) ∨
        (k = funcHash ++ "-finished" ∧ tl = none) := by
  obtain ⟨calls, outcome⟩ := tr
  intro e he k v t tl heq
  subst heq
  simp only [workerEvents] at he
  rcases List.mem_cons.mp he with h1 | h1
  · simp at h1
  rcases List.mem_cons.mp h1 with h2 | h2
  · simp at h2
  rcases List.mem_append.mp h2 with h3 | h3
  · obtain ⟨df, t2, heq2⟩ := callbackEvents_writes funcHash calls none _ h3
    simp only [WEvent.cacheWrite.injEq] at heq2
    exact Or.inl ⟨heq2.1, heq2.2.2.2⟩
  rcases List.mem_cons.mp h3 with h4 | h4
  · simp at h4
  rcases List.mem_append.mp h4 with h5 | h5
  · cases outcome with
    | finished df =>
        rcases List.mem_cons.mp h5 with h6 | h6
        · simp only [WEvent.cacheWrite.injEq] at h6
          exact Or.inl ⟨h6.1, h6.2.2.2⟩
        · simp at h6
    | interrupted => simp at h5
  rcases List.mem_cons.mp h5 with h6 | h6
  · simp only [WEvent.cacheWrite.injEq] at h6
    exact Or.inr ⟨h6.1, h6.2.2.2⟩
  rcases List.mem_cons.mp h6 with h7 | h7
  · simp at h7
  · simp at h7

/-- Witness for the amended C5: the finished-flag write of a concrete
cancelled run falls in the no-explicit-ttl case. -/
theorem C5_worker_write_ttls_witness :
    ("h" ++ "-finished" = "h" ++ "-results" ∧
        (none : Option Nat) = some 30000)
    ∨ ("h" ++ "-finished" = "h" ++ "-finished" ∧
        (none : Option Nat) = (none : Option Nat)) :=
  C5_worker_write_ttls 0 "u" "h" ⟨[], SimOutcome.interrupted⟩ 0
    (WEvent.cacheWrite ("h" ++ "-finished") (Val.flag true) 0 none)
    (by simp [workerEvents, callbackEvents])
    ("h" ++ "-finished") (Val.flag true) 0 none rfl

/-- C10: a worker run ending in cancellation (`ExecutionInterrupted`)
still writes the `"{fingerprint}-finished"` flag to `True` just before
deregistering (the finished write and the registry deletion are the last
two events of the cancelled trace); the flag then reads as `True` while
unexpired, so a poller for that fingerprint that already sees a snapshot
is shown it with further polling disabled, although the cancelled run
never published a final result. -/
theorem C10_cancelled_still_finishes (defaultTimeout ident : Nat)
    (uuid funcHash tid : String) (calls : List CallbackCall)
    (endTime now : Nat) (st : SysState)
    (hnow : now < endTime + defaultTimeout) :
    (∃ pre, workerEvents ident uuid funcHash ⟨calls, SimOutcome.interrupted⟩
        endTime
      = pre ++ [WEvent.cacheWrite (funcHash ++ "-finished") (Val.flag true)
          endTime none, WEvent.regDelete ident])
    ∧ cacheGet defaultTimeout
        (SimulationThread_run ident uuid funcHash
          ⟨calls, SimOutcome.interrupted⟩ endTime st).cache
        (funcHash ++ "-finished") now = some (Val.flag true)
    ∧ (∀ v, cacheGet defaultTimeout
          (SimulationThread_run ident uuid funcHash
            ⟨calls, SimOutcome.interrupted⟩ endTime st).cache
          (funcHash ++ "-results") now = some v →
        update_simulation_results defaultTimeout funcHash (some tid)
          (SimulationThread_run ident uuid funcHash
            ⟨calls, SimOutcome.interrupted⟩ endTime st).cache now
          = PollResult.show v true) := by
  have hfin : cacheGet defaultTimeout
      (SimulationThread_run ident uuid funcHash
        ⟨calls, SimOutcome.interrupted⟩ endTime st).cache
      (funcHash ++ "-finished") now = some (Val.flag true) := by
    have hcache : (SimulationThread_run ident uuid funcHash
        ⟨calls, SimOutcome.interrupted⟩ endTime st).cache
        = (funcHash ++ "-finished", ⟨Val.flag true, endTime, none⟩) ::
            (runCallbacks funcHash calls ⟨st.cache, none⟩).cache := rfl
    rw [hcache]
    simp [cacheGet, List.find?, entryExpired, Nat.not_le.mpr hnow]
  refine ⟨?_, hfin, ?_⟩
  · exact ⟨WEvent.regInsert ident uuid :: WEvent.simInvoke ::
      (callbackEvents funcHash calls none ++
        [WEvent.simReturn SimOutcome.interrupted]),
      by simp [workerEvents, List.append_assoc]⟩
  · intro v hres
    simp only [update_simulation_results]
    rw [hres, hfin]
    rfl

/-- Witness for C10: a cancelled run that managed one throttled snapshot
leaves a poller seeing that snapshot with polling disabled. -/
theorem C10_cancelled_still_finishes_witness :
    cacheGet 1000
        (SimulationThread_run 0 "u" "h" ⟨[⟨5, false, 0⟩],
          SimOutcome.interrupted⟩ 10 ⟨[], []⟩).cache
        ("h" ++ "-finished") 10 = some (Val.flag true)
    ∧ update_simulation_results 1000 "h" (some "t")
        (SimulationThread_run 0 "u" "h" ⟨[⟨5, false, 0⟩],
          SimOutcome.interrupted⟩ 10 ⟨[], []⟩).cache 10
        = PollResult.show (Val.snap 5) true :=
  ⟨(C10_cancelled_still_finishes 1000 0 "u" "h" "t" [⟨5, false, 0⟩] 10 10
      ⟨[], []⟩ (by omega)).2.1,
   (C10_cancelled_still_finishes 1000 0 "u" "h" "t" [⟨5, false, 0⟩] 10 10
      ⟨[], []⟩ (by omega)).2.2 (Val.snap 5)
     (by simp [SimulationThread_run, runCallbacks, step_callback,
        shouldWrite, cacheSet, cacheGet, List.find?, entryExpired])⟩
